import Mathlib

/-!
Verification of the chess scenario-generation and grading engine
(`why-vlms-fail`): a shallow embedding of the geometric oracle, the
rejection-sampling case generators and the verification-gated grading
protocol, with theorems settling the specified properties.

Text is modelled as `List Char`; chess squares are modelled as integer
coordinate pairs `(file, rank)` with `file, rank ∈ [0,8)`, the square
"a1" being `(0, 0)` and "h8" being `(7, 7)`, mirroring the
`_square_to_coords` conversion used throughout the source.
-/

set_option maxHeartbeats 4000000

namespace VlmChess

/-- A board coordinate: `(file, rank)` as signed integers (the source
computes signed deltas from `ord` arithmetic). -/
abbrev Coord := Int × Int

/-- A board square made from file/rank indices `0..7`. -/
def bsq (f r : Fin 8) : Coord := ((f.val : Int), (r.val : Int))

/-- Mirrors `_coords_to_square` (level_6_generator.py line 88): a
coordinate pair converts to a square name only when both components lie
in `[0, 8)`. -/
def onBoard (f r : Int) : Bool := (0 ≤ f && f < 8) && (0 ≤ r && r < 8)

/-- The step direction computed in `_get_path_squares`
(level_6_generator.py lines 128-129). -/
def stepDir (d : Int) : Int := if d == 0 then 0 else if 0 < d then 1 else -1

/-- The straight-line / diagonal test of `_get_path_squares`
(level_6_generator.py line 130): same file, same rank, or equal absolute
deltas, with the degenerate zero-delta pair excluded. -/
def isLineDelta (df dr : Int) : Bool :=
  (df == 0 && dr != 0) || (dr == 0 && df != 0) || (df.natAbs == dr.natAbs && df != 0)

/-- The while-loop of `_get_path_squares` (level_6_generator.py lines
132-139): walk from the square after `fromSq` toward the target,
collecting every visited on-board square, stopping on the target.  The
loop runs at most `max |df| |dr| - 1` times on an aligned pair, so fuel
8 is enough for any pair of board squares. -/
def pathLoop (stepF stepR : Int) : Nat → Coord → Coord → List Coord
  | 0, _, _ => []
  | fuel + 1, c, t =>
    if c.1 == t.1 && c.2 == t.2 then []
    else
      (if onBoard c.1 c.2 then [c] else []) ++
        pathLoop stepF stepR fuel (c.1 + stepF, c.2 + stepR) t

/-- Mirrors `_get_path_squares` (level_6_generator.py lines 124-140, identical
in level_5_generator.py lines 100-126 and level_2_generator.py lines
51-77): the open squares strictly between two aligned squares; returns
`[]` when the two squares are not aligned. -/
def getPathSquares (fromSq toSq : Coord) : List Coord :=
  let df := toSq.1 - fromSq.1
  let dr := toSq.2 - fromSq.2
  let stepF := stepDir df
  let stepR := stepDir dr
  if !(isLineDelta df dr) then []
  else pathLoop stepF stepR 8 (fromSq.1 + stepF, fromSq.2 + stepR) toSq

/-- Mirrors `_is_path_clear` (level_6_generator.py lines 142-146): no square on
the open path is occupied. -/
def isPathClear (fromSq toSq : Coord) (occupied : List Coord) : Bool :=
  (getPathSquares fromSq toSq).all (fun sq => !(occupied.contains sq))

/-- Mirrors `_can_attack` (level_6_generator.py lines 148-160, identical in
level_5_generator.py lines 136-152): geometric attack pattern per piece
type; any piece type other than rook, bishop, queen, knight falls
through to `False`. -/
def canAttack (fromSq toSq : Coord) (pieceType : String) : Bool :=
  let df := (toSq.1 - fromSq.1).natAbs
  let dr := (toSq.2 - fromSq.2).natAbs
  if pieceType == "rook" then (df == 0 && decide (0 < dr)) || (dr == 0 && decide (0 < df))
  else if pieceType == "bishop" then df == dr && decide (0 < df)
  else if pieceType == "queen" then
    (df == 0 && decide (0 < dr)) || (dr == 0 && decide (0 < df)) || (df == dr && decide (0 < df))
  else if pieceType == "knight" then (df == 2 && dr == 1) || (df == 1 && dr == 2)
  else false

/-- Mirrors `_can_attack_with_clear_path` (level_6_generator.py lines 162-168):
geometric attack plus a clear path; knights ignore blocking. -/
def canAttackWithClearPath (fromSq toSq : Coord) (pieceType : String)
    (occupied : List Coord) : Bool :=
  if !(canAttack fromSq toSq pieceType) then false
  else if pieceType == "knight" then true
  else isPathClear fromSq toSq occupied

/-- Mirrors `_symbol_to_type` (level_6_generator.py lines 113-122): piece symbol
to type name, defaulting to pawn. -/
def symbolToType (symbol : Char) : String :=
  if symbol == 'R' || symbol == 'r' then "rook"
  else if symbol == 'B' || symbol == 'b' then "bishop"
  else if symbol == 'N' || symbol == 'n' then "knight"
  else if symbol == 'Q' || symbol == 'q' then "queen"
  else if symbol == 'K' || symbol == 'k' then "king"
  else "pawn"

/-- Mirrors `PIECE_LIMITS` with its lookup default (level_5_generator.py lines
16-22 and 79-83): per-color supply limit by piece type, default 2. -/
def pieceLimits (pieceType : String) : Nat :=
  if pieceType == "king" then 1
  else if pieceType == "queen" then 1
  else if pieceType == "rook" then 2
  else if pieceType == "bishop" then 2
  else if pieceType == "knight" then 2
  else 2

/-! ### Spec-side geometry, for refinement comparison -/

/-- The spec:s description of `path_between` on aligned pairs — "the
open squares strictly between two squares aligned on a rank, file, or
diagonal, in order from `from` toward `to`" — and, as the code actually
behaves, the empty sequence on non-aligned pairs.  Stated from the
spec:s words, to be compared with `getPathSquares`. -/
def specStrictlyBetween (fromSq toSq : Coord) : List Coord :=
  let df := toSq.1 - fromSq.1
  let dr := toSq.2 - fromSq.2
  if isLineDelta df dr then
    (List.range (max df.natAbs dr.natAbs - 1)).map
      (fun i => (fromSq.1 + ((i : Int) + 1) * stepDir df,
                 fromSq.2 + ((i : Int) + 1) * stepDir dr))
  else []

/-- Spec geometry for the rook: "same file or rank, nonzero distance". -/
def specRookAttack (fromSq toSq : Coord) : Bool :=
  (fromSq.1 == toSq.1 && fromSq.2 != toSq.2) || (fromSq.2 == toSq.2 && fromSq.1 != toSq.1)

/-- Spec geometry for the bishop: "equal absolute file/rank delta, nonzero". -/
def specBishopAttack (fromSq toSq : Coord) : Bool :=
  (toSq.1 - fromSq.1).natAbs == (toSq.2 - fromSq.2).natAbs && fromSq.1 != toSq.1

/-- Spec geometry for the knight: the eight (±1,±2)/(±2,±1) offsets. -/
def specKnightAttack (fromSq toSq : Coord) : Bool :=
  let df := (toSq.1 - fromSq.1).natAbs
  let dr := (toSq.2 - fromSq.2).natAbs
  (df == 2 && dr == 1) || (df == 1 && dr == 2)

/-- Chebyshev distance between two coordinates. -/
def chebyshev (fromSq toSq : Coord) : Nat :=
  max (toSq.1 - fromSq.1).natAbs (toSq.2 - fromSq.2).natAbs

end VlmChess

namespace VlmChess

/-- C2 counterexample: for the non-aligned pair a1→b3 the source:s
`_get_path_squares` returns the plain empty list — the very same value
it returns for adjacent aligned pairs — not a distinct "invalid"
sentinel, contradicting the claim that the sentinel "is not an empty
sequence". -/
theorem path_between_no_sentinel :
    isLineDelta ((1 : Int) - 0) ((2 : Int) - 0) = false ∧
    getPathSquares ((0 : Int), (0 : Int)) ((1 : Int), (2 : Int)) = ([] : List Coord) ∧
    getPathSquares ((0 : Int), (0 : Int)) ((0 : Int), (1 : Int)) = ([] : List Coord) := by
  decide

/-- C2 (amended): on every pair of board squares `_get_path_squares`
agrees with the spec:s "squares strictly between, in order from the
origin" description, never contains either endpoint, and is empty
exactly when the pair is non-aligned or Chebyshev-adjacent — the
non-aligned result being the empty list, not a distinct sentinel. -/
theorem path_between_characterization (a b c d : Fin 8) :
    (getPathSquares (bsq a b) (bsq c d) = specStrictlyBetween (bsq a b) (bsq c d)) ∧
    ((getPathSquares (bsq a b) (bsq c d)).contains (bsq a b) = false) ∧
    ((getPathSquares (bsq a b) (bsq c d)).contains (bsq c d) = false) ∧
    ((getPathSquares (bsq a b) (bsq c d)).isEmpty =
      (!(isLineDelta ((bsq c d).1 - (bsq a b).1) ((bsq c d).2 - (bsq a b).2)) ||
        chebyshev (bsq a b) (bsq c d) == 1)) := by
  revert a b c d; decide

/-- C4 counterexample: `_can_attack` has no king branch — for the
adjacent pair e1→e2 (Chebyshev distance 1) it answers `false` for the
king, contradicting "king: Chebyshev distance 1". -/
theorem can_attack_king_has_no_case :
    chebyshev ((4 : Int), (0 : Int)) ((4 : Int), (1 : Int)) = 1 ∧
    canAttack ((4 : Int), (0 : Int)) ((4 : Int), (1 : Int)) "king" = false := by
  decide

/-- C4 (amended): on every pair of board squares `_can_attack` matches
the spec geometry for rook, bishop, queen (union of both) and knight,
but returns `false` unconditionally for the king (and for the pawn and
any unrecognised type) — the king has no branch in the source. -/
theorem can_attack_characterization (a b c d : Fin 8) :
    (canAttack (bsq a b) (bsq c d) "rook" = specRookAttack (bsq a b) (bsq c d)) ∧
    (canAttack (bsq a b) (bsq c d) "bishop" = specBishopAttack (bsq a b) (bsq c d)) ∧
    (canAttack (bsq a b) (bsq c d) "queen" =
      (specRookAttack (bsq a b) (bsq c d) || specBishopAttack (bsq a b) (bsq c d))) ∧
    (canAttack (bsq a b) (bsq c d) "knight" = specKnightAttack (bsq a b) (bsq c d)) ∧
    (canAttack (bsq a b) (bsq c d) "king" = false) ∧
    (canAttack (bsq a b) (bsq c d) "pawn" = false) := by
  revert a b c d; decide

end VlmChess

namespace VlmChess

/-! ### Text primitives modelling the Python string operations -/

/-- Characters for text modelling. -/
abbrev Chars := List Char

/-- The whitespace characters removed by the Python `str.strip()` on
ASCII text. -/
def isSpaceChar (c : Char) : Bool :=
  c == ' ' || c == '\t' || c == '\n' || c == '\r' || c == '\x0b' || c == '\x0c'

/-- Python `str.lower()` on ASCII text. -/
def pyLower (s : Chars) : Chars := s.map Char.toLower

/-- Python `str.strip()`: drop whitespace from both ends. -/
def pyStripChars (s : Chars) : Chars :=
  ((s.dropWhile isSpaceChar).reverse.dropWhile isSpaceChar).reverse

/-- Python substring containment (`needle in hay`). -/
def isSubChars (needle : Chars) : Chars → Bool
  | [] => needle.isPrefixOf []
  | c :: rest => needle.isPrefixOf (c :: rest) || isSubChars needle rest

theorem isSubChars_iff (needle hay : Chars) : isSubChars needle hay = true ↔ needle <:+: hay := by
  induction hay with
  | nil =>
    simp [isSubChars, List.isPrefixOf_iff_prefix]
  | cons c rest ih =>
    simp only [isSubChars, Bool.or_eq_true, List.isPrefixOf_iff_prefix, ih,
      List.infix_cons_iff]

/-! ### The verification-question builder (verification_generator.py) -/

/-- Mirrors `_piece_name` (verification_generator.py lines 205-222): piece
symbol to full name, defaulting to Unknown. -/
def pieceName (c : Char) : Chars :=
  if c = 'K' then "White King".data
  else if c = 'Q' then "White Queen".data
  else if c = 'R' then "White Rook".data
  else if c = 'B' then "White Bishop".data
  else if c = 'N' then "White Knight".data
  else if c = 'P' then "White Pawn".data
  else if c = 'k' then "Black King".data
  else if c = 'q' then "Black Queen".data
  else if c = 'r' then "Black Rook".data
  else if c = 'b' then "Black Bishop".data
  else if c = 'n' then "Black Knight".data
  else if c = 'p' then "Black Pawn".data
  else "Unknown".data

/-- Mirrors `_get_piece_type` (verification_generator.py lines 224-244): piece
symbol to lower-case type word, defaulting to unknown. -/
def pieceTypeName (c : Char) : Chars :=
  if c = 'K' ∨ c = 'k' then "king".data
  else if c = 'Q' ∨ c = 'q' then "queen".data
  else if c = 'R' ∨ c = 'r' then "rook".data
  else if c = 'B' ∨ c = 'b' then "bishop".data
  else if c = 'N' ∨ c = 'n' then "knight".data
  else if c = 'P' ∨ c = 'p' then "pawn".data
  else "unknown".data

/-- The canonical square name, e.g. `(4, 0)` to `"e1"` (inverse of the
`_square_to_coords` used by every generator). -/
def squareName (sq : Coord) : Chars :=
  [Char.ofNat (97 + sq.1.toNat), Char.ofNat (49 + sq.2.toNat)]

/-- Python `sep.join(parts)`. -/
def joinSep (sep : Chars) : List Chars → Chars
  | [] => []
  | [x] => x
  | x :: y :: rest => x ++ sep ++ joinSep sep (y :: rest)

/-- One `"<piece name> at <square>"` entry of the expected description
(verification_generator.py line 177). -/
def pieceDescEntry (p : Coord × Char) : Chars :=
  pieceName p.2 ++ " at ".data ++ squareName p.1

/-- The per-state text: comma-joined entries, or `"Empty board"`
(verification_generator.py lines 183-184). -/
def stateText (pieces : List (Coord × Char)) : Chars :=
  if pieces.isEmpty then "Empty board".data
  else joinSep ", ".data (pieces.map pieceDescEntry)

/-- The `"State N: ..."` description of one frame
(verification_generator.py line 185). -/
def stateDesc (i : Nat) (pieces : List (Coord × Char)) : Chars :=
  "State ".data ++ Nat.toDigits 10 (i + 1) ++ ": ".data ++ stateText pieces

/-- The enumerated frame descriptions (the `for i, state in
enumerate(states)` loop of `_verify_all_states`). -/
def stateDescs (i : Nat) : List (List (Coord × Char)) → List Chars
  | [] => []
  | st :: rest => stateDesc i st :: stateDescs (i + 1) rest

/-- The keyword list contributed by one frame: every square name and
every piece-type word (verification_generator.py lines 179-181). -/
def stateKeywords (pieces : List (Coord × Char)) : List Chars :=
  pieces.flatMap (fun p => [squareName p.1, pieceTypeName p.2])

/-- The verification question chosen from the number of states
(verification_generator.py lines 189-197). -/
def verifyQuestion (n : Nat) : Chars :=
  if n = 2 then
    "What are the pieces and their positions in State 1? What about State 2?".data
  else if n = 3 then
    "What are the pieces and their positions in State 1? State 2? State 3?".data
  else if n = 4 then
    "What are the pieces and their positions in State 1? State 2? State 3? State 4?".data
  else
    "What are the pieces and their positions in each of the ".data ++
      Nat.toDigits 10 n ++ " states?".data

/-- The decoration produced by the builder. -/
structure VerificationInfo where
  question : Chars
  expected : Chars
  keywords : List Chars
deriving DecidableEq

/-- Mirrors `_verify_all_states` (verification_generator.py lines 156-203): the
universal builder — question from the state count, expected text from
the joined frame descriptions, keywords from every square and piece
type; a fixed fallback for an empty state list. -/
def verifyAllStates (states : List (List (Coord × Char))) : VerificationInfo :=
  if states.isEmpty then
    { question := "Can you see chess board states in these images?".data
      expected := "yes".data
      keywords := ["yes".data, "board".data] }
  else
    { question := verifyQuestion states.length
      expected := joinSep "; ".data (stateDescs 0 states)
      keywords := states.flatMap stateKeywords }

/-- The punctuation removed by `check_verification_answer`
(verification_generator.py lines 261-262). -/
def punctChars : Chars := ['.', ',', '!', '?', '\'']

/-- The cleaned response: lower-cased, stripped, punctuation removed
(verification_generator.py lines 258-262). -/
def cleanResponse (response : Chars) : Chars :=
  (pyStripChars (pyLower response)).filter (fun c => !(punctChars.contains c))

/-- Mirrors `check_verification_answer` (verification_generator.py lines
246-272): every lower-cased keyword must be a substring of the cleaned
response. -/
def checkVerificationAnswer (response : Chars) (keywords : List Chars) : Bool :=
  keywords.all (fun kw => isSubChars (pyLower kw) (cleanResponse response))

end VlmChess

namespace VlmChess

theorem sub_dropWhile (p : Char → Bool) {n h : Chars}
    (hn : ∀ c ∈ n, p c = false) (hi : n <:+: h) : n <:+: h.dropWhile p := by
  obtain ⟨s, t, rfl⟩ := hi
  induction s with
  | nil =>
    cases n with
    | nil => exact List.nil_infix
    | cons c n0 =>
      have hc : p c = false := hn c (by simp)
      simp only [List.nil_append, List.cons_append, List.dropWhile_cons, hc,
        Bool.false_eq_true, if_false]
      exact ⟨[], t, rfl⟩
  | cons x s0 ih =>
    simp only [List.cons_append, List.dropWhile_cons]
    by_cases hx : p x = true
    · simpa [hx] using ih
    · simp only [hx, if_false]
      exact List.infix_cons ⟨s0, t, rfl⟩

theorem sub_pyStrip {n h : Chars} (hn : ∀ c ∈ n, isSpaceChar c = false)
    (hi : n <:+: h) : n <:+: pyStripChars h := by
  have h1 : n <:+: h.dropWhile isSpaceChar := sub_dropWhile _ hn hi
  have h2 : n.reverse <:+: (h.dropWhile isSpaceChar).reverse :=
    List.reverse_infix.mpr h1
  have h3 : n.reverse <:+: ((h.dropWhile isSpaceChar).reverse).dropWhile isSpaceChar :=
    sub_dropWhile _ (fun c hc => hn c (List.mem_reverse.mp hc)) h2
  have h4 : n <:+: (((h.dropWhile isSpaceChar).reverse).dropWhile isSpaceChar).reverse :=
    List.reverse_infix.mp (by simpa using h3)
  simpa [pyStripChars] using h4

theorem sub_filter (q : Char → Bool) {n h : Chars}
    (hn : ∀ c ∈ n, q c = true) (hi : n <:+: h) : n <:+: h.filter q := by
  obtain ⟨s, t, rfl⟩ := hi
  refine ⟨s.filter q, t.filter q, ?_⟩
  simp [List.filter_append, List.filter_eq_self.mpr hn]

theorem mem_joinSep_sub (sep : Chars) {x : Chars} {l : List Chars} (hx : x ∈ l) :
    x <:+: joinSep sep l := by
  induction l with
  | nil => cases hx
  | cons y rest ih =>
    cases rest with
    | nil =>
      simp only [List.mem_singleton] at hx
      subst hx
      simp [joinSep]
    | cons z rest2 =>
      rcases List.mem_cons.mp hx with h | h
      · subst h
        simp only [joinSep]
        rw [List.append_assoc]
        exact (List.prefix_append _ _).isInfix
      · exact (ih h).trans ((List.suffix_append _ _).isInfix)

theorem joinSep_tail (sep x : Chars) (l : List Chars) :
    joinSep sep l <:+: joinSep sep (x :: l) := by
  cases l with
  | nil => exact List.nil_infix
  | cons y r =>
    simp only [joinSep]
    exact (List.suffix_append _ _).isInfix

theorem fileChar_props (n : Nat) (h : n < 8) :
    (Char.ofNat (97 + n)).toLower = Char.ofNat (97 + n) ∧
    isSpaceChar (Char.ofNat (97 + n)) = false ∧
    punctChars.contains (Char.ofNat (97 + n)) = false := by
  interval_cases n <;> exact ⟨by decide, by decide, by decide⟩

theorem rankChar_props (n : Nat) (h : n < 8) :
    (Char.ofNat (49 + n)).toLower = Char.ofNat (49 + n) ∧
    isSpaceChar (Char.ofNat (49 + n)) = false ∧
    punctChars.contains (Char.ofNat (49 + n)) = false := by
  interval_cases n <;> exact ⟨by decide, by decide, by decide⟩

theorem squareName_chars {sq : Coord} (h : onBoard sq.1 sq.2 = true) :
    pyLower (squareName sq) = squareName sq ∧
    (∀ c ∈ squareName sq, isSpaceChar c = false ∧ punctChars.contains c = false) := by
  have hb : (0 ≤ sq.1 ∧ sq.1 < 8) ∧ 0 ≤ sq.2 ∧ sq.2 < 8 := by
    simpa [onBoard, Bool.and_eq_true, decide_eq_true_iff] using h
  obtain ⟨⟨hb1, hb2⟩, hb3, hb4⟩ := hb
  have hf : sq.1.toNat < 8 := by omega
  have hr : sq.2.toNat < 8 := by omega
  obtain ⟨hf1, hf2, hf3⟩ := fileChar_props sq.1.toNat hf
  obtain ⟨hr1, hr2, hr3⟩ := rankChar_props sq.2.toNat hr
  constructor
  · simp [pyLower, squareName, hf1, hr1]
  · intro c hc
    rcases List.mem_cons.mp hc with rfl | hc2
    · exact ⟨hf2, hf3⟩
    · rcases List.mem_singleton.mp hc2 with rfl
      exact ⟨hr2, hr3⟩

theorem pieceTypeName_props (c : Char) :
    pieceTypeName c <:+: pyLower (pieceName c) ∧
    pyLower (pieceTypeName c) = pieceTypeName c ∧
    (∀ ch ∈ pieceTypeName c, isSpaceChar ch = false ∧ punctChars.contains ch = false) := by
  by_cases h1 : c = 'K'
  · subst h1; exact ⟨by decide, by decide, by decide⟩
  by_cases h2 : c = 'Q'
  · subst h2; exact ⟨by decide, by decide, by decide⟩
  by_cases h3 : c = 'R'
  · subst h3; exact ⟨by decide, by decide, by decide⟩
  by_cases h4 : c = 'B'
  · subst h4; exact ⟨by decide, by decide, by decide⟩
  by_cases h5 : c = 'N'
  · subst h5; exact ⟨by decide, by decide, by decide⟩
  by_cases h6 : c = 'P'
  · subst h6; exact ⟨by decide, by decide, by decide⟩
  by_cases h7 : c = 'k'
  · subst h7; exact ⟨by decide, by decide, by decide⟩
  by_cases h8 : c = 'q'
  · subst h8; exact ⟨by decide, by decide, by decide⟩
  by_cases h9 : c = 'r'
  · subst h9; exact ⟨by decide, by decide, by decide⟩
  by_cases h10 : c = 'b'
  · subst h10; exact ⟨by decide, by decide, by decide⟩
  by_cases h11 : c = 'n'
  · subst h11; exact ⟨by decide, by decide, by decide⟩
  by_cases h12 : c = 'p'
  · subst h12; exact ⟨by decide, by decide, by decide⟩
  have hN : pieceName c = "Unknown".data := by
    simp [pieceName, h1, h2, h3, h4, h5, h6, h7, h8, h9, h10, h11, h12]
  have hT : pieceTypeName c = "unknown".data := by
    simp [pieceTypeName, h1, h2, h3, h4, h5, h6, h7, h8, h9, h10, h11, h12]
  rw [hN, hT]
  exact ⟨by decide, by decide, by decide⟩

theorem keyword_cases {kw : Chars} {states : List (List (Coord × Char))}
    (hkw : kw ∈ states.flatMap stateKeywords) :
    ∃ st ∈ states, ∃ p ∈ st, kw = squareName p.1 ∨ kw = pieceTypeName p.2 := by
  rcases List.mem_flatMap.mp hkw with ⟨st, hst, hk⟩
  rcases List.mem_flatMap.mp hk with ⟨p, hp, hkp⟩
  refine ⟨st, hst, p, hp, ?_⟩
  rcases List.mem_cons.mp hkp with h | h
  · exact Or.inl h
  · exact Or.inr (List.mem_singleton.mp h)

theorem entry_sub_descs {p : Coord × Char} {st : List (Coord × Char)}
    {states : List (List (Coord × Char))} (hp : p ∈ st) (hst : st ∈ states) (i : Nat) :
    pieceDescEntry p <:+: joinSep "; ".data (stateDescs i states) := by
  induction states generalizing i with
  | nil => cases hst
  | cons s rest ih =>
    rcases List.mem_cons.mp hst with h | h
    · subst h
      have hne : st.isEmpty = false := by
        cases st
        · cases hp
        · rfl
      have h1 : pieceDescEntry p <:+: stateText st := by
        simp only [stateText, hne, Bool.false_eq_true, if_false]
        exact mem_joinSep_sub _ (List.mem_map_of_mem _ hp)
      have h2 : pieceDescEntry p <:+: stateDesc i st :=
        h1.trans ((List.suffix_append _ _).isInfix)
      have h3 : stateDesc i st ∈ stateDescs i (st :: rest) := by
        simp [stateDescs]
      exact h2.trans (mem_joinSep_sub _ h3)
    · have h4 := ih h (i + 1)
      simp only [stateDescs]
      exact h4.trans (joinSep_tail _ _ _)

/-- C10: feeding the lower-cased expected description back as the
response satisfies the keyword verification check, for every record
whose frames are non-empty and whose squares lie on the board. -/
theorem verification_gate_idempotence (states : List (List (Coord × Char)))
    (hne : states ≠ [])
    (hvalid : ∀ st ∈ states, ∀ p ∈ st, onBoard p.1.1 p.1.2 = true) :
    checkVerificationAnswer (pyLower (verifyAllStates states).expected)
      (verifyAllStates states).keywords = true := by
  have hE : states.isEmpty = false := by
    cases states
    · exact absurd rfl hne
    · rfl
  simp only [verifyAllStates, hE, Bool.false_eq_true, if_false]
  rw [checkVerificationAnswer, List.all_eq_true]
  intro kw hkw
  rcases keyword_cases hkw with ⟨st, hst, p, hp, hcase⟩
  have hmain : (∀ ch ∈ kw, isSpaceChar ch = false ∧ punctChars.contains ch = false) ∧
      pyLower kw = kw ∧ kw <:+: pyLower (pieceDescEntry p) := by
    rcases hcase with rfl | rfl
    · have hob := hvalid st hst p hp
      obtain ⟨hlow, hchar⟩ := squareName_chars hob
      refine ⟨hchar, hlow, ?_⟩
      have hsuf : squareName p.1 <:+ pieceDescEntry p := List.suffix_append _ _
      have := List.IsInfix.map Char.toLower hsuf.isInfix
      rwa [show List.map Char.toLower (squareName p.1) = pyLower (squareName p.1) from rfl,
        hlow] at this
    · obtain ⟨hinf, hlow, hchar⟩ := pieceTypeName_props p.2
      refine ⟨hchar, hlow, ?_⟩
      have hpref : pieceName p.2 <+: pieceDescEntry p := by
        rw [pieceDescEntry, List.append_assoc]
        exact List.prefix_append _ _
      exact hinf.trans (List.IsInfix.map Char.toLower hpref.isInfix)
  obtain ⟨hchar, hlow, hinf⟩ := hmain
  have hexp : pieceDescEntry p <:+: joinSep "; ".data (stateDescs 0 states) :=
    entry_sub_descs hp hst 0
  have h1 : kw <:+: pyLower (joinSep "; ".data (stateDescs 0 states)) :=
    hinf.trans (List.IsInfix.map Char.toLower hexp)
  have h2 : kw <:+: pyLower (pyLower (joinSep "; ".data (stateDescs 0 states))) := by
    have := List.IsInfix.map Char.toLower h1
    rwa [show List.map Char.toLower kw = pyLower kw from rfl, hlow] at this
  have h3 := sub_pyStrip (fun c hc => (hchar c hc).1) h2
  have h4 := sub_filter (fun c => !(punctChars.contains c))
    (fun c hc => by
      show (!(punctChars.contains c)) = true
      rw [(hchar c hc).2]
      rfl) h3
  rw [isSubChars_iff, hlow]
  exact h4

/-- C10 witness: a single frame with a white pawn on e5. -/
theorem verification_gate_idempotence_witness :
    (([[(((4 : Int), (4 : Int)), 'P')]] : List (List (Coord × Char))) ≠ []) ∧
    (∀ st ∈ ([[(((4 : Int), (4 : Int)), 'P')]] : List (List (Coord × Char))),
      ∀ p ∈ st, onBoard p.1.1 p.1.2 = true) ∧
    checkVerificationAnswer
      (pyLower (verifyAllStates [[(((4 : Int), (4 : Int)), 'P')]]).expected)
      (verifyAllStates [[(((4 : Int), (4 : Int)), 'P')]]).keywords = true :=
  ⟨by decide, by decide,
    verification_gate_idempotence [[(((4 : Int), (4 : Int)), 'P')]] (by decide) (by decide)⟩

end VlmChess

namespace VlmChess

/-! ### The combined-response parser (temporal_test_base.py) -/

/-- Python `line.split(":", 1)[1]`: the text after the first colon
(empty when the line has no colon — the callers only split lines that
matched a colon-terminated label). -/
def afterColon : Chars → Chars
  | [] => []
  | c :: rest => if c = ':' then rest else afterColon rest

/-- One iteration of the line scan in `_parse_combined_response`
(temporal_test_base.py lines 319-325): a lower-cased stripped line with
the verification label updates the first slot, one with a main label
updates the second, everything else is skipped; the text is extracted
from the original line. -/
def scanStep (acc : Chars × Chars) (line : Chars) : Chars × Chars :=
  if "verification:".data.isPrefixOf (pyStripChars (pyLower line)) then
    (pyStripChars (afterColon line), acc.2)
  else if "main answer:".data.isPrefixOf (pyStripChars (pyLower line)) ||
      "main:".data.isPrefixOf (pyStripChars (pyLower line)) then
    (acc.1, pyStripChars (afterColon line))
  else acc

/-- The full line scan of `_parse_combined_response`, starting from two
empty answers. -/
def scanLines (lines : List Chars) : Chars × Chars := lines.foldl scanStep ([], [])

/-- The fallback of `_parse_combined_response` (temporal_test_base.py
lines 328-335): the first two stripped non-empty lines, or the two
character halves of the raw response when there are fewer than two. -/
def fallbackSplit (lines : List Chars) (response : Chars) : Chars × Chars :=
  match (lines.map pyStripChars).filter (fun l => !(l.isEmpty)) with
  | a :: b :: _ => (a, b)
  | _ => (response.take (response.length / 2), response.drop (response.length / 2))

/-- Mirrors `_parse_combined_response` (temporal_test_base.py lines 310-337):
scan the lines for labelled answers; if either answer is still empty,
fall back to the non-empty-line split. -/
def parseCombinedResponse (response : Chars) : Chars × Chars :=
  if (scanLines (List.splitOn '\n' response)).1 = [] ∨
      (scanLines (List.splitOn '\n' response)).2 = [] then
    fallbackSplit (List.splitOn '\n' response) response
  else scanLines (List.splitOn '\n' response)

/-- The verification answers extracted by the scan, in line order. -/
def verExtracts (lines : List Chars) : List Chars :=
  lines.filterMap (fun line =>
    if "verification:".data.isPrefixOf (pyStripChars (pyLower line)) then
      some (pyStripChars (afterColon line))
    else none)

/-- The main answers extracted by the scan, in line order. -/
def mainExtracts (lines : List Chars) : List Chars :=
  lines.filterMap (fun line =>
    if "verification:".data.isPrefixOf (pyStripChars (pyLower line)) then none
    else if "main answer:".data.isPrefixOf (pyStripChars (pyLower line)) ||
        "main:".data.isPrefixOf (pyStripChars (pyLower line)) then
      some (pyStripChars (afterColon line))
    else none)

theorem verExtracts_cons (l : Chars) (ls : List Chars) :
    verExtracts (l :: ls) =
      if "verification:".data.isPrefixOf (pyStripChars (pyLower l)) then
        pyStripChars (afterColon l) :: verExtracts ls
      else verExtracts ls := by
  by_cases hv : "verification:".data.isPrefixOf (pyStripChars (pyLower l)) = true
  · simp only [verExtracts, List.filterMap_cons, hv, if_true]
  · rw [Bool.not_eq_true] at hv
    simp only [verExtracts, List.filterMap_cons, hv, Bool.false_eq_true, if_false]

theorem mainExtracts_cons (l : Chars) (ls : List Chars) :
    mainExtracts (l :: ls) =
      if "verification:".data.isPrefixOf (pyStripChars (pyLower l)) then mainExtracts ls
      else if "main answer:".data.isPrefixOf (pyStripChars (pyLower l)) ||
          "main:".data.isPrefixOf (pyStripChars (pyLower l)) then
        pyStripChars (afterColon l) :: mainExtracts ls
      else mainExtracts ls := by
  by_cases hv : "verification:".data.isPrefixOf (pyStripChars (pyLower l)) = true
  · simp only [mainExtracts, List.filterMap_cons, hv, if_true]
  · rw [Bool.not_eq_true] at hv
    by_cases hm : ("main answer:".data.isPrefixOf (pyStripChars (pyLower l)) ||
        "main:".data.isPrefixOf (pyStripChars (pyLower l))) = true
    · simp only [mainExtracts, List.filterMap_cons, hv, Bool.false_eq_true, if_false,
        hm, if_true]
    · rw [Bool.not_eq_true] at hm
      simp only [mainExtracts, List.filterMap_cons, hv, hm, Bool.false_eq_true, if_false]

theorem bool_ne_true {b : Bool} (h : b = false) : ¬ b = true := by simp [h]

theorem scanStep_ver (acc : Chars × Chars) (l : Chars)
    (hv : "verification:".data.isPrefixOf (pyStripChars (pyLower l)) = true) :
    scanStep acc l = (pyStripChars (afterColon l), acc.2) := by
  simp only [scanStep, hv, if_true]

theorem scanStep_main (acc : Chars × Chars) (l : Chars)
    (hv : "verification:".data.isPrefixOf (pyStripChars (pyLower l)) = false)
    (hm : ("main answer:".data.isPrefixOf (pyStripChars (pyLower l)) ||
        "main:".data.isPrefixOf (pyStripChars (pyLower l))) = true) :
    scanStep acc l = (acc.1, pyStripChars (afterColon l)) := by
  simp only [scanStep, hv, Bool.false_eq_true, if_false, hm, if_true]

theorem scanStep_skip (acc : Chars × Chars) (l : Chars)
    (hv : "verification:".data.isPrefixOf (pyStripChars (pyLower l)) = false)
    (hm : ("main answer:".data.isPrefixOf (pyStripChars (pyLower l)) ||
        "main:".data.isPrefixOf (pyStripChars (pyLower l))) = false) :
    scanStep acc l = acc := by
  simp only [scanStep, hv, hm, Bool.false_eq_true, if_false]

theorem scanLines_core (lines : List Chars) :
    ∀ acc : Chars × Chars,
      lines.foldl scanStep acc =
        ((verExtracts lines).getLastD acc.1, (mainExtracts lines).getLastD acc.2) := by
  induction lines with
  | nil => intro acc; simp [verExtracts, mainExtracts]
  | cons l ls ih =>
    intro acc
    rw [List.foldl_cons, verExtracts_cons, mainExtracts_cons]
    by_cases hv : "verification:".data.isPrefixOf (pyStripChars (pyLower l)) = true
    · rw [scanStep_ver acc l hv, ih, if_pos hv, if_pos hv, List.getLastD_cons]
    · rw [Bool.not_eq_true] at hv
      rw [if_neg (bool_ne_true hv), if_neg (bool_ne_true hv)]
      by_cases hm : ("main answer:".data.isPrefixOf (pyStripChars (pyLower l)) ||
          "main:".data.isPrefixOf (pyStripChars (pyLower l))) = true
      · rw [scanStep_main acc l hv hm, ih, if_pos hm, List.getLastD_cons]
      · rw [Bool.not_eq_true] at hm
        rw [scanStep_skip acc l hv hm, ih, if_neg (bool_ne_true hm)]

/-- C5 (amended): a labelled line supplies the corresponding answer
(the last labelled line winning), but the fallback split is used
whenever either answer is missing or empty, not only when neither
label is found; when both labels are present with non-empty text the
parser returns the two extracted answers. -/
theorem parse_labeled_lines (response : Chars)
    (hv : (verExtracts (List.splitOn '\n' response)).getLastD [] ≠ [])
    (hm : (mainExtracts (List.splitOn '\n' response)).getLastD [] ≠ []) :
    parseCombinedResponse response =
      ((verExtracts (List.splitOn '\n' response)).getLastD [],
       (mainExtracts (List.splitOn '\n' response)).getLastD []) := by
  have hcore : List.foldl scanStep ([], []) (List.splitOn '\n' response) =
      ((verExtracts (List.splitOn '\n' response)).getLastD [],
       (mainExtracts (List.splitOn '\n' response)).getLastD []) :=
    scanLines_core (List.splitOn '\n' response) ([], [])
  unfold parseCombinedResponse scanLines
  rw [hcore]
  exact if_neg (fun h => h.elim hv hm)

/-- C5 (amended) witness at a concrete two-line response. -/
theorem parse_labeled_lines_witness :
    (verExtracts (List.splitOn '\n'
        ("Verification: ok".data ++ '\n' :: "Main answer: yes".data))).getLastD [] ≠ [] ∧
    (mainExtracts (List.splitOn '\n'
        ("Verification: ok".data ++ '\n' :: "Main answer: yes".data))).getLastD [] ≠ [] ∧
    parseCombinedResponse ("Verification: ok".data ++ '\n' :: "Main answer: yes".data) =
      ("ok".data, "yes".data) :=
  ⟨by decide, by decide,
    (parse_labeled_lines ("Verification: ok".data ++ '\n' :: "Main answer: yes".data)
      (by decide) (by decide)).trans (by decide)⟩

/-- C5 counterexample: the response has a line with the
`"verification:"` label (supplying the answer `"ok"`), yet because no
main label is present the parser falls back and returns the whole raw
first line, not the labelled text — the fallback is not reserved for
the case where neither label is found. -/
theorem parse_fallback_despite_label :
    "verification:".data.isPrefixOf
      (pyStripChars (pyLower "Verification: ok".data)) = true ∧
    (verExtracts (List.splitOn '\n'
        ("Verification: ok".data ++ '\n' :: "yes".data))).getLastD [] = "ok".data ∧
    parseCombinedResponse ("Verification: ok".data ++ '\n' :: "yes".data) =
      ("Verification: ok".data, "yes".data) := by
  decide

end VlmChess

namespace VlmChess

/-! ### Case records and the evaluation harness (temporal_test_base.py) -/

/-- One board frame of a case: a pieces mapping (kept in construction
order, with Python dict later-keys-win semantics modelled by
`dictGet`) and the highlighted squares. -/
structure BoardState where
  pieces : List (Coord × Char)
  squares : List Coord
deriving DecidableEq

/-- A generated test case, the shared CaseRecord contract. -/
structure Case where
  caseId : Chars
  caseType : Chars
  subtype : Chars
  states : List BoardState
  question : Chars
  expected : Chars
  reasoning : Chars
  verificationKeywords : List Chars := []
deriving DecidableEq

/-- Python dict lookup over a key-value list built in insertion order:
the last binding of a key wins. -/
def dictGet : List (Coord × Char) → Coord → Option Char
  | [], _ => none
  | p :: rest, k =>
    match dictGet rest k with
    | some v => some v
    | none => if p.1 = k then some p.2 else none

/-- Mirrors `_extract_answer` (temporal_test_base.py lines 339-348): look for
the literal substrings yes / no in the first 20 characters of the
lower-cased stripped response, else unknown. -/
def extractAnswer (response : Chars) : Chars :=
  if isSubChars "yes".data ((pyStripChars (pyLower response)).take 20) then "yes".data
  else if isSubChars "no".data ((pyStripChars (pyLower response)).take 20) then "no".data
  else "unknown".data

/-- The additive statistics counters of `run_test`
(temporal_test_base.py lines 208-215). -/
structure RunStats where
  total : Nat
  verification_passed : Nat
  verification_failed : Nat
  test_correct : Nat
  test_incorrect : Nat
  test_correct_given_verified : Nat
deriving DecidableEq

/-- The zeroed counters. -/
def RunStats.init : RunStats := ⟨0, 0, 0, 0, 0, 0⟩

/-- The per-case grading trace entry (the fields of `TestResult`
consulted by the claims). -/
structure CaseResult where
  verificationPassed : Bool
  correct : Bool
  modelAnswer : Chars
deriving DecidableEq

/-- One iteration of the `run_test` loop (temporal_test_base.py lines
222-297): the statistics update and the per-case record.  The answerer
interaction is an `Except`: `ok response` for a returned string,
`error` when `model_client.query` raised — the `except` block then
records the case as verification-failed and incorrect with answer
`"error"`. -/
def runCaseOutcome (stats : RunStats) (item : Case × Except Chars Chars) :
    RunStats × CaseResult :=
  let s1 := { stats with total := stats.total + 1 }
  match item.2 with
  | Except.error _ =>
    ({ s1 with verification_failed := s1.verification_failed + 1 },
      ⟨false, false, "error".data⟩)
  | Except.ok response =>
    let vt := parseCombinedResponse response
    if checkVerificationAnswer vt.1 item.1.verificationKeywords then
      let ans := extractAnswer vt.2
      if pyLower ans = pyLower item.1.expected then
        ({ s1 with
            verification_passed := s1.verification_passed + 1
            test_correct := s1.test_correct + 1
            test_correct_given_verified := s1.test_correct_given_verified + 1 },
          ⟨true, true, ans⟩)
      else
        ({ s1 with
            verification_passed := s1.verification_passed + 1
            test_incorrect := s1.test_incorrect + 1 },
          ⟨true, false, ans⟩)
    else
      ({ s1 with verification_failed := s1.verification_failed + 1 },
        ⟨false, false, "N/A (verification failed)".data⟩)

/-- The loop body: update the counters and append this case entry to
the results list (`results.append(result)`). -/
def runCaseStep (acc : RunStats × List CaseResult)
    (item : Case × Except Chars Chars) : RunStats × List CaseResult :=
  ((runCaseOutcome acc.1 item).1, acc.2 ++ [(runCaseOutcome acc.1 item).2])

/-- Mirrors `run_test` (temporal_test_base.py lines 196-308) over a transcript
of cases paired with their answerer outcomes. -/
def runTest (items : List (Case × Except Chars Chars)) : RunStats × List CaseResult :=
  items.foldl runCaseStep (RunStats.init, [])

theorem runTest_length_aux (items : List (Case × Except Chars Chars)) :
    ∀ init : RunStats × List CaseResult,
      ((items.foldl runCaseStep init).2).length = init.2.length + items.length := by
  induction items with
  | nil => intro init; simp
  | cons x xs ih =>
    intro init
    rw [List.foldl_cons, ih]
    simp only [runCaseStep, List.length_append, List.length_cons, List.length_nil]
    omega

/-- C8: a failure of the external answerer is absorbed at the case
boundary — processing that case adds one to `total` and one to
`verification_failed`, leaves every other counter and every earlier
record unchanged, appends a verification-failed incorrect record, and
the loop always produces one record per case (the batch is never
aborted). -/
theorem run_test_error_isolation (pre : List (Case × Except Chars Chars))
    (c : Case) (msg : Chars) (items : List (Case × Except Chars Chars)) :
    (runTest (pre ++ [(c, Except.error msg)]) =
      ({ (runTest pre).1 with
          total := (runTest pre).1.total + 1,
          verification_failed := (runTest pre).1.verification_failed + 1 },
        (runTest pre).2 ++ [⟨false, false, "error".data⟩])) ∧
    (runTest items).2.length = items.length := by
  constructor
  · rw [runTest, List.foldl_append]
    rfl
  · simpa [runTest] using runTest_length_aux items (RunStats.init, [])

end VlmChess

namespace VlmChess

/-! ### Level 6: castling with temporal history (level_6_generator.py) -/

/-- One entry of `castling_configs` (level_6_generator.py lines 31-78). -/
structure CastlingConfig where
  kingStart : Coord
  kingEnd : Coord
  rookStart : Coord
  rookEnd : Coord
  inSq : Coord
  throughSq : Coord
  intoSq : Coord
  colorWhite : Bool
  kingSymbol : Char
  rookSymbol : Char
  pathSquares : List Coord
  kingTempMoves : List Coord
  rookTempMoves : List Coord
  questionText : Chars
deriving DecidableEq

/-- The four castling configurations, squares in coordinates
(`a1 = (0,0)`, `h8 = (7,7)`). -/
def castlingConfigs : List CastlingConfig :=
  [ { kingStart := (4, 0), kingEnd := (6, 0), rookStart := (7, 0), rookEnd := (5, 0)
      inSq := (4, 0), throughSq := (5, 0), intoSq := (6, 0)
      colorWhite := true, kingSymbol := 'K', rookSymbol := 'R'
      pathSquares := [(5, 0), (6, 0)]
      kingTempMoves := [(3, 0), (5, 0)], rookTempMoves := [(6, 0), (5, 0)]
      questionText := "Can white castle kingside?".data },
    { kingStart := (4, 0), kingEnd := (2, 0), rookStart := (0, 0), rookEnd := (3, 0)
      inSq := (4, 0), throughSq := (3, 0), intoSq := (2, 0)
      colorWhite := true, kingSymbol := 'K', rookSymbol := 'R'
      pathSquares := [(1, 0), (2, 0), (3, 0)]
      kingTempMoves := [(3, 0), (5, 0)], rookTempMoves := [(1, 0), (2, 0)]
      questionText := "Can white castle queenside?".data },
    { kingStart := (4, 7), kingEnd := (6, 7), rookStart := (7, 7), rookEnd := (5, 7)
      inSq := (4, 7), throughSq := (5, 7), intoSq := (6, 7)
      colorWhite := false, kingSymbol := 'k', rookSymbol := 'r'
      pathSquares := [(5, 7), (6, 7)]
      kingTempMoves := [(3, 7), (5, 7)], rookTempMoves := [(6, 7), (5, 7)]
      questionText := "Can black castle kingside?".data },
    { kingStart := (4, 7), kingEnd := (2, 7), rookStart := (0, 7), rookEnd := (3, 7)
      inSq := (4, 7), throughSq := (3, 7), intoSq := (2, 7)
      colorWhite := false, kingSymbol := 'k', rookSymbol := 'r'
      pathSquares := [(1, 7), (2, 7), (3, 7)]
      kingTempMoves := [(3, 7), (5, 7)], rookTempMoves := [(1, 7), (2, 7)]
      questionText := "Can black castle queenside?".data } ]

/-- Mirrors `_generate_king_moved_case` (level_6_generator.py lines 465-530):
three frames — king on its start square, king on the temporary square,
king back on its start square — with the rook fixed on its start square
and the extra pieces static; expected answer no.  The extra pieces are
drawn outside the forbidden set, so their squares avoid the king and
rook start squares. -/
def kingMovedCase (cfg : CastlingConfig) (caseNum : Nat) (kingTemp : Coord)
    (extras : List (Coord × Char)) : Case :=
  let basePieces := (cfg.rookStart, cfg.rookSymbol) :: extras
  { caseId := "L6_king_moved_".data ++ Nat.toDigits 10 caseNum
    caseType := "castling_temporal".data
    subtype := "invalid_king_moved".data
    states :=
      [ ⟨(cfg.kingStart, cfg.kingSymbol) :: basePieces, []⟩,
        ⟨(kingTemp, cfg.kingSymbol) :: basePieces, []⟩,
        ⟨(cfg.kingStart, cfg.kingSymbol) :: basePieces, []⟩ ]
    question := cfg.questionText
    expected := "no".data
    reasoning := "King moved from ".data ++ squareName cfg.kingStart ++ " to ".data ++
      squareName kingTemp ++ " and back; castling rights lost".data }

/-- Mirrors `_generate_rook_moved_case` (level_6_generator.py lines 534-598):
three frames — rook start, rook on the temporary square, rook back —
with the king fixed on its start square; expected answer no. -/
def rookMovedCase (cfg : CastlingConfig) (caseNum : Nat) (rookTemp : Coord)
    (extras : List (Coord × Char)) : Case :=
  let basePieces := (cfg.kingStart, cfg.kingSymbol) :: extras
  { caseId := "L6_rook_moved_".data ++ Nat.toDigits 10 caseNum
    caseType := "castling_temporal".data
    subtype := "invalid_rook_moved".data
    states :=
      [ ⟨(cfg.rookStart, cfg.rookSymbol) :: basePieces, []⟩,
        ⟨(rookTemp, cfg.rookSymbol) :: basePieces, []⟩,
        ⟨(cfg.rookStart, cfg.rookSymbol) :: basePieces, []⟩ ]
    question := cfg.questionText
    expected := "no".data
    reasoning := "Rook moved from ".data ++ squareName cfg.rookStart ++ " to ".data ++
      squareName rookTemp ++ " and back; castling rights lost".data }

theorem dictGet_not_mem {l : List (Coord × Char)} {k : Coord}
    (h : ∀ p ∈ l, p.1 ≠ k) : dictGet l k = none := by
  induction l with
  | nil => rfl
  | cons p rest ih =>
    simp only [dictGet, ih (fun q hq => h q (List.mem_cons_of_mem _ hq))]
    simp [h p (List.mem_cons_self _ _)]

theorem dictGet_cons (p : Coord × Char) (l : List (Coord × Char)) (k : Coord) :
    dictGet (p :: l) k =
      match dictGet l k with
      | some v => some v
      | none => if p.1 = k then some p.2 else none := rfl

theorem moved_case_shape (cfg : CastlingConfig) (caseNum : Nat) (kt rt : Coord)
    (extras : List (Coord × Char))
    (hkr : cfg.kingStart ≠ cfg.rookStart)
    (hex : ∀ p ∈ extras, p.1 ≠ cfg.kingStart ∧ p.1 ≠ cfg.rookStart) :
    ((kingMovedCase cfg caseNum kt extras).states.length = 3 ∧
     ((kingMovedCase cfg caseNum kt extras).states.head?.map
        (fun st => (dictGet st.pieces cfg.kingStart, dictGet st.pieces cfg.rookStart))) =
       some (some cfg.kingSymbol, some cfg.rookSymbol) ∧
     ((kingMovedCase cfg caseNum kt extras).states.getLast?.map
        (fun st => (dictGet st.pieces cfg.kingStart, dictGet st.pieces cfg.rookStart))) =
       some (some cfg.kingSymbol, some cfg.rookSymbol) ∧
     (kingMovedCase cfg caseNum kt extras).expected = "no".data) ∧
    ((rookMovedCase cfg caseNum rt extras).states.length = 3 ∧
     ((rookMovedCase cfg caseNum rt extras).states.head?.map
        (fun st => (dictGet st.pieces cfg.kingStart, dictGet st.pieces cfg.rookStart))) =
       some (some cfg.kingSymbol, some cfg.rookSymbol) ∧
     ((rookMovedCase cfg caseNum rt extras).states.getLast?.map
        (fun st => (dictGet st.pieces cfg.kingStart, dictGet st.pieces cfg.rookStart))) =
       some (some cfg.kingSymbol, some cfg.rookSymbol) ∧
     (rookMovedCase cfg caseNum rt extras).expected = "no".data) := by
  have e1 : dictGet extras cfg.kingStart = none :=
    dictGet_not_mem (fun p hp => (hex p hp).1)
  have e2 : dictGet extras cfg.rookStart = none :=
    dictGet_not_mem (fun p hp => (hex p hp).2)
  refine ⟨⟨rfl, ?_, ?_, rfl⟩, ⟨rfl, ?_, ?_, rfl⟩⟩ <;>
    simp only [kingMovedCase, rookMovedCase, List.head?, List.getLast?, Option.map,
      dictGet_cons, e1, e2] <;>
    simp [dictGet_cons, e1, e2, hkr, Ne.symm hkr]

/-- C7: for every castling configuration, the king-moved and rook-moved
cases have exactly three frames, the first and last frames show the
king and the rook on their original squares, and the expected answer is
no. -/
theorem castling_moved_cases_temporal (cfg : CastlingConfig)
    (hcfg : cfg ∈ castlingConfigs) (caseNum : Nat) (kt rt : Coord)
    (extras : List (Coord × Char))
    (hex : ∀ p ∈ extras, p.1 ≠ cfg.kingStart ∧ p.1 ≠ cfg.rookStart) :
    ((kingMovedCase cfg caseNum kt extras).states.length = 3 ∧
     ((kingMovedCase cfg caseNum kt extras).states.head?.map
        (fun st => (dictGet st.pieces cfg.kingStart, dictGet st.pieces cfg.rookStart))) =
       some (some cfg.kingSymbol, some cfg.rookSymbol) ∧
     ((kingMovedCase cfg caseNum kt extras).states.getLast?.map
        (fun st => (dictGet st.pieces cfg.kingStart, dictGet st.pieces cfg.rookStart))) =
       some (some cfg.kingSymbol, some cfg.rookSymbol) ∧
     (kingMovedCase cfg caseNum kt extras).expected = "no".data) ∧
    ((rookMovedCase cfg caseNum rt extras).states.length = 3 ∧
     ((rookMovedCase cfg caseNum rt extras).states.head?.map
        (fun st => (dictGet st.pieces cfg.kingStart, dictGet st.pieces cfg.rookStart))) =
       some (some cfg.kingSymbol, some cfg.rookSymbol) ∧
     ((rookMovedCase cfg caseNum rt extras).states.getLast?.map
        (fun st => (dictGet st.pieces cfg.kingStart, dictGet st.pieces cfg.rookStart))) =
       some (some cfg.kingSymbol, some cfg.rookSymbol) ∧
     (rookMovedCase cfg caseNum rt extras).expected = "no".data) := by
  fin_cases hcfg <;>
    exact moved_case_shape _ caseNum kt rt extras (by decide) hex

/-- C7 witness: the white-kingside configuration with the d1 temporary
square and no extra pieces. -/
theorem castling_moved_cases_temporal_witness :
    ((⟨(4, 0), (6, 0), (7, 0), (5, 0), (4, 0), (5, 0), (6, 0), true, 'K', 'R',
        [(5, 0), (6, 0)], [(3, 0), (5, 0)], [(6, 0), (5, 0)],
        "Can white castle kingside?".data⟩ : CastlingConfig) ∈ castlingConfigs) ∧
    (kingMovedCase
        ⟨(4, 0), (6, 0), (7, 0), (5, 0), (4, 0), (5, 0), (6, 0), true, 'K', 'R',
          [(5, 0), (6, 0)], [(3, 0), (5, 0)], [(6, 0), (5, 0)],
          "Can white castle kingside?".data⟩ 1 ((3 : Int), (0 : Int)) []).expected =
      "no".data :=
  ⟨by decide,
    (castling_moved_cases_temporal
      ⟨(4, 0), (6, 0), (7, 0), (5, 0), (4, 0), (5, 0), (6, 0), true, 'K', 'R',
        [(5, 0), (6, 0)], [(3, 0), (5, 0)], [(6, 0), (5, 0)],
        "Can white castle kingside?".data⟩ (by decide) 1 ((3 : Int), (0 : Int))
      ((6 : Int), (0 : Int)) [] (by decide)).1.2.2.2⟩

end VlmChess

namespace VlmChess

/-! ### Level 2: path-blocked capture (level_2_generator.py) -/

/-- Mirrors `_piece_symbol` (level_2_generator.py lines 38-46); the color is a
Bool, `true` for white. -/
def pieceSymbol (pieceType : String) (colorWhite : Bool) : Char :=
  if pieceType = "rook" then (if colorWhite then 'R' else 'r')
  else if pieceType = "bishop" then (if colorWhite then 'B' else 'b')
  else if pieceType = "queen" then (if colorWhite then 'Q' else 'q')
  else if pieceType = "knight" then (if colorWhite then 'N' else 'n')
  else if pieceType = "pawn" then (if colorWhite then 'P' else 'p')
  else 'P'

/-- Mirrors `_is_valid_move_for_piece` (level_2_generator.py lines 79-95): the
same geometric test as `_can_attack`, duplicated in the source. -/
def isValidMoveForPiece (start finish : Coord) (pieceType : String) : Bool :=
  let df := (finish.1 - start.1).natAbs
  let dr := (finish.2 - start.2).natAbs
  if pieceType = "rook" then (df == 0 && decide (0 < dr)) || (dr == 0 && decide (0 < df))
  else if pieceType = "bishop" then df == dr && decide (0 < df)
  else if pieceType = "queen" then
    (df == 0 && decide (0 < dr)) || (dr == 0 && decide (0 < df)) || (df == dr && decide (0 < df))
  else if pieceType = "knight" then (df == 2 && dr == 1) || (df == 1 && dr == 2)
  else false

/-- Python `str.capitalize()` on an ASCII word. -/
def pyCapitalize (s : Chars) : Chars :=
  match s with
  | [] => []
  | c :: rest => c.toUpper :: rest

/-- Mirrors `_generate_still_blocked_case` (level_2_generator.py lines
275-349), parameterized by the random draws: the attack setup
(attacker and target squares, from `_generate_attack_setup`), the two
blocker positions (`random.sample(path, 2)`), the attacker piece type
and the attacker/blocker colors.  The source places a queen as the
blocking piece in both frames and never consults any piece-count
limit. -/
def stillBlockedCase (attackerSq targetSq blockerStart blockerEnd : Coord)
    (pieceType : String) (attackerWhite blockerWhite : Bool) (caseNum : Nat) :
    Option Case :=
  let path := getPathSquares attackerSq targetSq
  if path.length < 2 then none
  else if !(isValidMoveForPiece blockerStart blockerEnd "queen") then none
  else if (getPathSquares blockerStart blockerEnd).any
      (fun sq => sq = attackerSq || sq = targetSq) then none
  else
    let attackerSymbol := pieceSymbol pieceType attackerWhite
    let targetSymbol := pieceSymbol "pawn" (!attackerWhite)
    let blockerSymbol := pieceSymbol "queen" blockerWhite
    some
      { caseId := "L2_".data ++ pieceType.data ++ "_still_blocked_".data ++
          Nat.toDigits 10 caseNum
        caseType := "path_capture_temporal".data
        subtype := "still_blocked".data
        states :=
          [ ⟨[(attackerSq, attackerSymbol), (targetSq, targetSymbol),
              (blockerStart, blockerSymbol)], []⟩,
            ⟨[(attackerSq, attackerSymbol), (targetSq, targetSymbol),
              (blockerEnd, blockerSymbol)], []⟩ ]
        question := "Can the ".data ++ pyCapitalize pieceType.data ++ " at ".data ++
          squareName attackerSq ++ " capture the pawn at ".data ++
          squareName targetSq ++ "?".data
        expected := "no".data
        reasoning := "Queen moved from ".data ++ squareName blockerStart ++
          " to ".data ++ squareName blockerEnd ++ ", but still blocks the path".data }

/-- Soundness facts about the path on board squares: no path square is
an endpoint, and a non-empty path forces distinct endpoints. -/
theorem path_sound_aux (a b c d : Fin 8) :
    ((getPathSquares (bsq a b) (bsq c d)).all
      (fun sq => decide (sq ≠ bsq a b) && decide (sq ≠ bsq c d)) &&
     ((getPathSquares (bsq a b) (bsq c d)).isEmpty || decide (bsq a b ≠ bsq c d))) = true := by
  revert a b c d; decide

/-- C6 counterexample: the still-blocked generator can draw a white
queen attacker on a1 targeting the pawn on a6 with a white queen
blocker on the file — both emitted frames then hold two white queens,
exceeding the one-queen standard supply recorded in `PIECE_LIMITS`; no
per-color/per-type counter is consulted. -/
theorem still_blocked_two_white_queens :
    ((stillBlockedCase ((0 : Int), (0 : Int)) ((0 : Int), (5 : Int))
        ((0 : Int), (1 : Int)) ((0 : Int), (3 : Int)) "queen" true true 1).map
      (fun c => c.states.map (fun st => (st.pieces.map Prod.snd).count 'Q'))) =
      some [2, 2] ∧
    pieceLimits "queen" = 1 := by
  decide

/-- C6 (amended): in every frame emitted by the still-blocked generator
no square carries two pieces — the blocker squares are sampled from the
open path, which avoids both endpoints — but the per-color piece
supply is not bounded there: the generator keeps no running counter and
can emit two same-color queens. -/
theorem still_blocked_no_shared_square (a b c d : Fin 8) (b1 b2 : Coord)
    (pieceType : String) (aw bw : Bool) (caseNum : Nat) (cse : Case)
    (h1 : b1 ∈ getPathSquares (bsq a b) (bsq c d))
    (h2 : b2 ∈ getPathSquares (bsq a b) (bsq c d))
    (hsome : stillBlockedCase (bsq a b) (bsq c d) b1 b2 pieceType aw bw caseNum =
      some cse) :
    ∀ st ∈ cse.states, (st.pieces.map Prod.fst).Nodup := by
  have haux := path_sound_aux a b c d
  rw [Bool.and_eq_true] at haux
  have hall := List.all_eq_true.mp haux.1
  have hb1 := hall b1 h1
  have hb2 := hall b2 h2
  rw [Bool.and_eq_true, decide_eq_true_iff, decide_eq_true_iff] at hb1 hb2
  have hne : getPathSquares (bsq a b) (bsq c d) ≠ [] := by
    intro h
    rw [h] at h1
    cases h1
  have hat : bsq a b ≠ bsq c d := by
    rcases Bool.or_eq_true _ _ |>.mp haux.2 with h | h
    · exact absurd (List.isEmpty_iff.mp h) hne
    · exact of_decide_eq_true h
  simp only [stillBlockedCase] at hsome
  split at hsome
  · exact Option.noConfusion hsome
  split at hsome
  · exact Option.noConfusion hsome
  split at hsome
  · exact Option.noConfusion hsome
  injection hsome with hcse
  subst hcse
  intro st hst
  rcases List.mem_cons.mp hst with rfl | hst2
  · simp [List.nodup_cons, hat, Ne.symm hb1.1, Ne.symm hb1.2]
  · rcases List.mem_singleton.mp hst2 with rfl
    simp [List.nodup_cons, hat, Ne.symm hb2.1, Ne.symm hb2.2]

/-- C6 (amended) witness at the concrete a-file configuration. -/
theorem still_blocked_no_shared_square_witness :
    (((0 : Int), (1 : Int)) ∈ getPathSquares ((0 : Int), (0 : Int)) ((0 : Int), (5 : Int))) ∧
    (((0 : Int), (3 : Int)) ∈ getPathSquares ((0 : Int), (0 : Int)) ((0 : Int), (5 : Int))) ∧
    (∀ cse ∈ stillBlockedCase ((0 : Int), (0 : Int)) ((0 : Int), (5 : Int))
        ((0 : Int), (1 : Int)) ((0 : Int), (3 : Int)) "queen" true false 1,
      ∀ st ∈ cse.states, (st.pieces.map Prod.fst).Nodup) :=
  ⟨by decide, by decide,
    fun cse hc =>
      still_blocked_no_shared_square 0 0 0 5 ((0 : Int), (1 : Int)) ((0 : Int), (3 : Int))
        "queen" true false 1 cse (by decide) (by decide) (Option.mem_def.mp hc)⟩

end VlmChess

namespace VlmChess

/-! ### Level 4: en passant with constraints (level_4_generator.py) -/

/-- Modelled from the spec: the canonical piece encoding, "upper =
white" (spec, PieceSymbol); used only by the spec-modelled oracle
below. -/
def symbolIsWhite (c : Char) : Bool := c.isUpper

/-- Modelled from the spec: `LegalityOracle.square_under_attack`
(spec 4.2) has no named implementation in the source; it is composed
here from the source:s `_can_attack_with_clear_path`, excluding the
attacker:s own square from the occupancy used for its path check,
exactly as the spec describes. -/
def squareUnderAttack (target : Coord) (byWhite : Bool)
    (pieces : List (Coord × Char)) : Bool :=
  pieces.any (fun p =>
    symbolIsWhite p.2 == byWhite &&
    canAttackWithClearPath p.1 target (symbolToType p.2)
      ((pieces.map Prod.fst).filter (fun sq => !(sq == p.1))))

/-- Modelled from the spec: `king_in_check` is `square_under_attack` by
the opposite color (spec 4.2). -/
def kingInCheck (kingSq : Coord) (kingWhite : Bool)
    (pieces : List (Coord × Char)) : Bool :=
  squareUnderAttack kingSq (!kingWhite) pieces

/-- One entry of `pin_configs` in `_generate_scenario_b_causes_check`
(level_4_generator.py lines 247-277). -/
structure PinConfig where
  king : Coord
  white : Coord
  attacker : Coord
  attackerType : Char
  blackStart : Coord
  blackEnd : Coord
deriving DecidableEq

/-- The six hard-coded pin configurations (level_4_generator.py lines
247-277): vertical pins on the e and d files, horizontal pins on rank
5; attackers are black rooks or queens, never diagonal pieces. -/
def pinConfigs : List PinConfig :=
  [ ⟨(4, 0), (4, 4), (4, 7), 'r', (3, 6), (3, 4)⟩,
    ⟨(4, 0), (4, 4), (4, 7), 'q', (5, 6), (5, 4)⟩,
    ⟨(3, 0), (3, 4), (3, 7), 'r', (2, 6), (2, 4)⟩,
    ⟨(3, 0), (3, 4), (3, 7), 'q', (4, 6), (4, 4)⟩,
    ⟨(0, 4), (3, 4), (7, 4), 'r', (4, 6), (4, 4)⟩,
    ⟨(7, 4), (5, 4), (0, 4), 'q', (4, 6), (4, 4)⟩ ]

/-- The scenario-B case built from a configuration
(level_4_generator.py lines 282-309): two frames, black pawn stepping
from its start to its double-step square; expected answer no. -/
def scenarioBCase (cfg : PinConfig) (caseNum : Nat) : Case :=
  { caseId := "L4_scenario_b_".data ++ Nat.toDigits 10 caseNum
    caseType := "en_passant_constraint".data
    subtype := "causes_check_pin".data
    states :=
      [ ⟨[(cfg.white, 'P'), (cfg.blackStart, 'p'), (cfg.king, 'K'),
          (cfg.attacker, cfg.attackerType)], []⟩,
        ⟨[(cfg.white, 'P'), (cfg.blackEnd, 'p'), (cfg.king, 'K'),
          (cfg.attacker, cfg.attackerType)], []⟩ ]
    question := "Can white capture the black pawn en passant?".data
    expected := "no".data
    reasoning := "White pawn is pinned by ".data ++ [cfg.attackerType] ++ " at ".data ++
      squareName cfg.attacker ++ ", capturing would expose King to check".data }

/-- Performing the en-passant capture on the final frame, as the claim
describes it: remove the captured pawn from its square, remove the
capturing white pawn, and place it on the destination square one rank
beyond the captured pawn. -/
def epCaptureResult (cfg : PinConfig) : List (Coord × Char) :=
  (((scenarioBCase cfg 1).states.getLastD ⟨[], []⟩).pieces.filter
    (fun p => !(p.1 == cfg.blackEnd) && !(p.1 == cfg.white))) ++
    [((cfg.blackEnd.1, cfg.blackEnd.2 + 1), 'P')]

/-- C3: for each of the six pin configurations the emitted case is the
pin subtype with expected answer no, simulating the en-passant capture
on its final frame leaves the white king in check, and the pin line is
axis-aligned (king and attacker share a file or a rank — never a
diagonal). -/
theorem pin_cases_expose_check :
    pinConfigs.all (fun cfg =>
      ((scenarioBCase cfg 1).expected == "no".data) &&
      ((scenarioBCase cfg 1).subtype == "causes_check_pin".data) &&
      kingInCheck cfg.king true (epCaptureResult cfg) &&
      ((cfg.king.1 == cfg.attacker.1) || (cfg.king.2 == cfg.attacker.2))) = true := by
  decide

/-- Mirrors `_adjacent_files` (level_4_generator.py lines 28-36), on file
indices 0-7. -/
def adjacentFiles (f : Nat) : List Nat :=
  (if 0 < f then [f - 1] else []) ++ (if f < 7 then [f + 1] else [])

/-- The square grid in the generation order of `_get_safe_extra_pieces`
(files outer, ranks inner). -/
def allSquares : List Coord :=
  (List.range 8).flatMap (fun f => (List.range 8).map (fun r => ((f : Int), (r : Int))))

/-- The `available` pool of `_get_safe_extra_pieces`
(level_4_generator.py lines 70-77): every square not occupied; the
distractor squares are drawn from it with no legality check, and the
en-passant destination square is not excluded. -/
def l4Available (occupied : List Coord) : List Coord :=
  allSquares.filter (fun sq => !(occupied.contains sq))

/-- One entry of `valid_combinations` (level_4_generator.py lines
83-95). -/
structure L4Combo where
  whiteSq : Coord
  blackStart : Coord
  blackEnd : Coord
deriving DecidableEq

/-- Mirrors `valid_combinations` of `_generate_valid_cases`
(level_4_generator.py lines 83-95): black pawn on files b-g moving rank
7 to rank 5, white pawn on an adjacent file on rank 5. -/
def l4ValidCombos : List L4Combo :=
  ([1, 2, 3, 4, 5, 6] : List Nat).flatMap (fun bf =>
    (adjacentFiles bf).map (fun wf =>
      ⟨((wf : Int), 4), ((bf : Int), 6), ((bf : Int), 4)⟩))

/-- One case emitted by `_generate_valid_cases` (level_4_generator.py
lines 97-137) for a drawn combination, two extra squares from the
available pool and two distractor symbols drawn from N, B, n, b. -/
def l4ValidCase (combo : L4Combo) (extra1 extra2 : Coord) (p1 p2 : Char) : Case :=
  { caseId := "L4_valid_1".data
    caseType := "en_passant_constraint".data
    subtype := "valid".data
    states :=
      [ ⟨[(combo.whiteSq, 'P'), (combo.blackStart, 'p'), (extra1, p1), (extra2, p2)], []⟩,
        ⟨[(combo.whiteSq, 'P'), (combo.blackEnd, 'p'), (extra1, p1), (extra2, p2)], []⟩ ]
    question := "Can white capture the black pawn en passant?".data
    expected := "yes".data
    reasoning := "All conditions met, no constraints violated".data }

/-- Modelled from the spec: the en-passant eligibility predicate
(spec 4.2), white capturing black — capturing pawn and target on the
same rank and adjacent files, the target pawn double-stepped from its
start rank (rank index 6 to 4), and the destination-beyond square (one
rank further, index 5) is empty in the final frame.  No oracle for
en-passant eligibility exists in the source. -/
def epEligible (whiteSq blackStart blackEnd : Coord)
    (finalPieces : List (Coord × Char)) : Bool :=
  (whiteSq.2 == blackEnd.2) && ((whiteSq.1 - blackEnd.1).natAbs == 1) &&
  (blackStart.1 == blackEnd.1) && (blackStart.2 == 6) && (blackEnd.2 == 4) &&
  !(finalPieces.any (fun p => p.1 == (blackEnd.1, blackEnd.2 + 1)))

/-- C1 (code bug): with the combination white pawn c5, black pawn
b7 to b5, the en-passant destination square b6 is in the distractor
pool of `_get_safe_extra_pieces` — drawing it places a knight on b6,
yet the case is emitted with expected yes while the spec:s eligibility
predicate rejects the position (the destination square is occupied);
no distractor is ever checked against a legality oracle. -/
theorem l4_distractor_invalidates_yes_case :
    ((⟨((2 : Int), (4 : Int)), ((1 : Int), (6 : Int)), ((1 : Int), (4 : Int))⟩ : L4Combo) ∈
      l4ValidCombos) ∧
    (((1 : Int), (5 : Int)) ∈
      l4Available [((2 : Int), (4 : Int)), ((1 : Int), (6 : Int)), ((1 : Int), (4 : Int))]) ∧
    ((l4ValidCase ⟨((2 : Int), (4 : Int)), ((1 : Int), (6 : Int)), ((1 : Int), (4 : Int))⟩
        ((1 : Int), (5 : Int)) ((7 : Int), (7 : Int)) 'N' 'b').expected = "yes".data) ∧
    (epEligible ((2 : Int), (4 : Int)) ((1 : Int), (6 : Int)) ((1 : Int), (4 : Int))
      (((l4ValidCase ⟨((2 : Int), (4 : Int)), ((1 : Int), (6 : Int)), ((1 : Int), (4 : Int))⟩
          ((1 : Int), (5 : Int)) ((7 : Int), (7 : Int)) 'N' 'b').states.getLastD
        ⟨[], []⟩).pieces) = false) := by
  decide

end VlmChess

namespace VlmChess

/-! ### Retry budgets of the generate_all drivers (levels 3 and 5) -/

/-- The bounded retry loop of the level-3 driver (each `for _ in
range(target * 10)` loop of level_3_generator.py lines 626-704): up to
`budget` attempts, stopping once `target` cases are collected.  The
attempt outcomes are supplied by the oracle `f` consumed at successive
indices; `none` is a proposal rejected by the generator:s internal
constraints.  Returns the collected cases and the next oracle index. -/
def collectLoop (f : Nat → Option Case) : Nat → Nat → Nat → List Case × Nat
  | 0, _, i => ([], i)
  | budget + 1, target, i =>
    if target = 0 then ([], i)
    else
      match f i with
      | some c =>
        let rest := collectLoop f budget (target - 1) (i + 1)
        (c :: rest.1, rest.2)
      | none => collectLoop f budget target (i + 1)

/-- The per-case retry of the level-5 driver: up to `tries` attempts
for a single case (the inner `for _ in range(10)` loops of
level_5_generator.py lines 673-698). -/
def tryCase (f : Nat → Option Case) : Nat → Nat → Option Case × Nat
  | 0, i => (none, i)
  | tries + 1, i =>
    match f i with
    | some c => (some c, i + 1)
    | none => tryCase f tries (i + 1)

/-- Collects `k` requested cases, each with a fresh 10-attempt budget
(level_5_generator.py lines 673-698). -/
def collectEach (f : Nat → Option Case) : Nat → Nat → List Case × Nat
  | 0, i => ([], i)
  | k + 1, i =>
    match tryCase f 10 i with
    | (some c, j) =>
      let rest := collectEach f k j
      (c :: rest.1, rest.2)
    | (none, j) => collectEach f k j

/-- The final summary of both drivers prints percentages dividing by
`len(all_cases)` (level_3_generator.py lines 717-724,
level_5_generator.py lines 706-711): with zero cases Python raises
`ZeroDivisionError`, modelled as the error result. -/
def summaryGuard (allCases : List Case) : Except String (List Case) :=
  if allCases.length = 0 then Except.error "ZeroDivisionError"
  else Except.ok allCases

/-- The successive family loops of a driver: one bounded retry loop
per requested family target, threading the attempt oracle. -/
def collectFamilies (f : Nat → Option Case) : List Nat → Nat → List Case × Nat
  | [], i => ([], i)
  | t :: ts, i =>
    let r := collectLoop f (t * 10) t i
    let rest := collectFamilies f ts r.2
    (r.1 ++ rest.1, rest.2)

/-- The family targets of `generate_all` of Level3Generator
(level_3_generator.py lines 614-624): two valid families and five
invalid families; the proportions `int(n_cases * 0.15)` are modelled as
`nCases * 15 / 100` (the float truncation agrees up to the
representation of 0.15; no property proved here depends on the exact
split). -/
def level3Targets (nCases : Nat) : List Nat :=
  let nValidBasic := nCases * 15 / 100
  let nValidCorrect := nCases * 15 / 100
  let nInvalid := nCases - nValidBasic - nValidCorrect
  let nNotFromStart := nInvalid / 5
  let nOneSquare := nInvalid / 5
  let nNotAdjacent := nInvalid / 5
  let nConfusion := nInvalid / 5
  let nWrongPawn := nInvalid - nNotFromStart - nOneSquare - nNotAdjacent - nConfusion
  [nValidBasic, nValidCorrect, nNotFromStart, nOneSquare, nNotAdjacent, nConfusion,
    nWrongPawn]

/-- The cases collected by `generate_all` of Level3Generator
(level_3_generator.py lines 607-727): each family retried with a 10x
budget; the final `random.shuffle` reordering is omitted as no counted
property depends on the order. -/
def level3Cases (nCases : Nat) (f : Nat → Option Case) : List Case :=
  (collectFamilies f (level3Targets nCases) 0).1

/-- Mirrors `generate_all` of Level3Generator including its summary. -/
def level3GenerateAll (nCases : Nat) (f : Nat → Option Case) :
    Except String (List Case) :=
  summaryGuard (level3Cases nCases f)

/-- One check-combination block of the level-5 driver
(level_5_generator.py lines 663-698): first / second / both violation
groups, each case with a 10-attempt budget. -/
def level5ComboCases (g : Nat → Option Case) (nCombo : Nat) (i : Nat) :
    List Case × Nat :=
  let a := collectEach g (nCombo / 3) i
  let b := collectEach g (nCombo / 3) a.2
  let c := collectEach g (nCombo - nCombo / 3 - nCombo / 3) b.2
  (a.1 ++ b.1 ++ c.1, c.2)

/-- The successive check-combination blocks. -/
def level5Combos (g : Nat → Option Case) : List Nat → Nat → List Case × Nat
  | [], i => ([], i)
  | n :: ns, i =>
    let r := level5ComboCases g n i
    let rest := level5Combos g ns r.2
    (r.1 ++ rest.1, rest.2)

/-- The three check-combination targets of the level-5 driver
(level_5_generator.py lines 659-665): `n_invalid // 3` per combination
plus one for the first `n_invalid % 3` of them. -/
def level5Targets (nCases : Nat) : List Nat :=
  let nInvalid := nCases - nCases * 20 / 100
  [ nInvalid / 3 + (if 0 < nInvalid % 3 then 1 else 0),
    nInvalid / 3 + (if 1 < nInvalid % 3 then 1 else 0),
    nInvalid / 3 + (if 2 < nInvalid % 3 then 1 else 0) ]

/-- The cases collected by `generate_all` of Level5Generator
(level_5_generator.py lines 635-713): the valid while-loop with budget
`n_valid * 10` and the three check-combination blocks; the proportion
`int(n_cases * 0.20)` is modelled as `nCases * 20 / 100`. -/
def level5Cases (nCases : Nat) (g : Nat → Option Case) : List Case :=
  (collectLoop g ((nCases * 20 / 100) * 10) (nCases * 20 / 100) 0).1 ++
    (level5Combos g (level5Targets nCases)
      (collectLoop g ((nCases * 20 / 100) * 10) (nCases * 20 / 100) 0).2).1

/-- Mirrors `generate_all` of Level5Generator including its summary. -/
def level5GenerateAll (nCases : Nat) (g : Nat → Option Case) :
    Except String (List Case) :=
  summaryGuard (level5Cases nCases g)

theorem collectLoop_length_le (f : Nat → Option Case) :
    ∀ b t i : Nat, (collectLoop f b t i).1.length ≤ t := by
  intro b
  induction b with
  | zero => intro t i; simp [collectLoop]
  | succ b ih =>
    intro t i
    rw [collectLoop]
    by_cases ht : t = 0
    · simp [ht]
    · simp only [ht, if_false]
      cases hf : f i with
      | some c =>
        have := ih (t - 1) (i + 1)
        simp only [List.length_cons]
        omega
      | none => exact ih t (i + 1)

theorem collectFamilies_length_le (f : Nat → Option Case) :
    ∀ (ts : List Nat) (i : Nat), (collectFamilies f ts i).1.length ≤ ts.sum := by
  intro ts
  induction ts with
  | nil => intro i; simp [collectFamilies]
  | cons t rest ih =>
    intro i
    have h1 := collectLoop_length_le f (t * 10) t i
    have h2 := ih (collectLoop f (t * 10) t i).2
    simp only [collectFamilies, List.length_append, List.sum_cons]
    omega

theorem collectEach_length_le (g : Nat → Option Case) :
    ∀ k i : Nat, (collectEach g k i).1.length ≤ k := by
  intro k
  induction k with
  | zero => intro i; simp [collectEach]
  | succ k ih =>
    intro i
    rw [collectEach]
    cases htry : tryCase g 10 i with
    | mk o j =>
      cases o with
      | some c =>
        have := ih j
        simp only [List.length_cons]
        omega
      | none => exact le_trans (ih j) (Nat.le_succ k)

theorem level5ComboCases_length_le (g : Nat → Option Case) (nCombo i : Nat) :
    (level5ComboCases g nCombo i).1.length ≤ nCombo := by
  have h1 := collectEach_length_le g (nCombo / 3) i
  have h2 := collectEach_length_le g (nCombo / 3)
    (collectEach g (nCombo / 3) i).2
  have h3 := collectEach_length_le g (nCombo - nCombo / 3 - nCombo / 3)
    (collectEach g (nCombo / 3) (collectEach g (nCombo / 3) i).2).2
  simp only [level5ComboCases, List.length_append]
  omega

theorem level5Combos_length_le (g : Nat → Option Case) :
    ∀ (ns : List Nat) (i : Nat), (level5Combos g ns i).1.length ≤ ns.sum := by
  intro ns
  induction ns with
  | nil => intro i; simp [level5Combos]
  | cons n rest ih =>
    intro i
    have h1 := level5ComboCases_length_le g n i
    have h2 := ih (level5ComboCases g n i).2
    simp only [level5Combos, List.length_append, List.sum_cons]
    omega

theorem level3Cases_length_le (nCases : Nat) (f : Nat → Option Case) :
    (level3Cases nCases f).length ≤ nCases := by
  have h := collectFamilies_length_le f (level3Targets nCases) 0
  rw [level3Cases]
  refine le_trans h ?_
  simp only [level3Targets, List.sum_cons, List.sum_nil]
  omega

theorem level5Cases_length_le (nCases : Nat) (g : Nat → Option Case) :
    (level5Cases nCases g).length ≤ nCases := by
  rw [level5Cases]
  simp only [List.length_append]
  have h1 := collectLoop_length_le g ((nCases * 20 / 100) * 10) (nCases * 20 / 100) 0
  have h2 := level5Combos_length_le g (level5Targets nCases)
    (collectLoop g ((nCases * 20 / 100) * 10) (nCases * 20 / 100) 0).2
  have h3 : (level5Targets nCases).sum ≤ nCases - nCases * 20 / 100 := by
    simp only [level5Targets, List.sum_cons, List.sum_nil]
    have hr : (nCases - nCases * 20 / 100) % 3 < 3 := Nat.mod_lt _ (by norm_num)
    rcases (show (nCases - nCases * 20 / 100) % 3 = 0 ∨
        (nCases - nCases * 20 / 100) % 3 = 1 ∨
        (nCases - nCases * 20 / 100) % 3 = 2 by omega) with h | h | h <;>
      simp [h] <;> omega
  omega

theorem summaryGuard_spec (l : List Case) (n : Nat) (h : l.length ≤ n) :
    (match summaryGuard l with
     | Except.ok l2 => 0 < l2.length ∧ l2.length ≤ n
     | Except.error e => e = "ZeroDivisionError") := by
  by_cases h0 : l.length = 0
  · simp [summaryGuard, h0]
  · simp only [summaryGuard, h0, if_false]
    exact ⟨Nat.pos_of_ne_zero h0, h⟩

/-- C9 counterexample: at requested count 0 both drivers collect zero
cases and the final summary divides by `len(all_cases)` — the
`generate_all` call raises `ZeroDivisionError` instead of returning an
empty list. -/
theorem generate_all_zero_raises :
    level3GenerateAll 0 (fun _ => none) = Except.error "ZeroDivisionError" ∧
    level5GenerateAll 0 (fun _ => none) = Except.error "ZeroDivisionError" := by
  constructor <;> rfl

/-- C9 (amended): for every requested count and every attempt-outcome
oracle, the level-3 and level-5 drivers retry only within their
bounded 10x budgets, return at most the requested number of cases when
they return at all, and the only exception either can raise is the
ZeroDivisionError of the final percentage summary, raised exactly when
zero cases were produced. -/
theorem generate_all_bounded (nCases : Nat) (f g : Nat → Option Case) :
    (match level3GenerateAll nCases f with
     | Except.ok l => 0 < l.length ∧ l.length ≤ nCases
     | Except.error e => e = "ZeroDivisionError") ∧
    (match level5GenerateAll nCases g with
     | Except.ok l => 0 < l.length ∧ l.length ≤ nCases
     | Except.error e => e = "ZeroDivisionError") :=
  ⟨summaryGuard_spec _ _ (level3Cases_length_le nCases f),
   summaryGuard_spec _ _ (level5Cases_length_le nCases g)⟩

end VlmChess
